import Mathlib

/-!
# Formal model of the Aviation Analytics Dashboard core pipeline

Shallow embedding of `src/dashboard3.py`: the SQLite cleaning query
(`query_cleaned`), the pandas filter (`df_filtered`), the numeric-range bound
derivation (`min_hour` .. `max_duration`), the SQL aggregate catalog
(`queries`), and the chart-dispatch chain.

The SQL runs on SQLite (version 3.40 line), so the string and numeric
primitives below model SQLite's own semantics: `CAST` of text extracts a
numeric prefix and yields 0 when there is none (it never errors), `LIKE` is
ASCII-case-insensitive, `INSTR` is case-sensitive, and `DATE(...)` on a
well-formed `YYYY-MM-DD` layout with month in 1..12 and day in 1..31 keeps the
components verbatim (no month-length validation), returning NULL otherwise.
The pandas/Python side models `int(...)` on strings (raising = `none`),
`astype(int)` as elementwise `int(...)`, NaN comparisons being false, and
`Series.min()` of an empty/all-NaN column being NaN.
-/

set_option maxRecDepth 4000

namespace Aviation

/-! ## SQLite string primitives -/

/-- ASCII lower-casing, as used by SQLite `LIKE`'s default case folding. -/
def lowerChar (c : Char) : Char :=
  if 'A' ≤ c ∧ c ≤ 'Z' then Char.ofNat (c.toNat + 32) else c

/-- One token of a SQLite `LIKE` pattern: the `%` wildcard or a literal
character.  The two patterns in the source (`'%h %m'` and `'%h'`) use only
these two token kinds. -/
inductive LikeTok
  | any
  | lit (c : Char)
deriving DecidableEq, Repr

/-- SQLite `LIKE` matching (ASCII-case-insensitive), over tokenized patterns. -/
def likeM : List LikeTok → List Char → Bool
  | [], s => s.isEmpty
  | .any :: ps, [] => likeM ps []
  | .any :: ps, c :: s => likeM ps (c :: s) || likeM (.any :: ps) s
  | .lit _ :: _, [] => false
  | .lit p :: ps, c :: s => (lowerChar p == lowerChar c) && likeM ps s
termination_by ps s => (ps.length, s.length)

/-- The pattern `'%h %m'`. -/
def patHM : List LikeTok := [.any, .lit 'h', .lit ' ', .any, .lit 'm']

/-- The pattern `'%h'`. -/
def patH : List LikeTok := [.any, .lit 'h']

/-- SQLite `INSTR(s, t)` for a single-character needle: 1-based position of
the first (case-sensitive) occurrence, 0 if absent. -/
def instrAux : List Char → Char → Nat → Nat
  | [], _, _ => 0
  | c :: s, t, i => if c = t then i else instrAux s t (i + 1)

def instr (s : String) (t : Char) : Nat := instrAux s.toList t 1

/-- SQLite `SUBSTR(s, y, z)` on the character list, for `y ≥ 1` (every call
site in the source uses `y ≥ 1`): nonnegative `z` takes `z` characters from
the `y`-th; negative `z` takes the `abs z` characters preceding the `y`-th. -/
def substrL (l : List Char) (y z : Int) : List Char :=
  if z < 0 then (l.take (y - 1).toNat).drop (y - 1 + z).toNat
  else (l.drop (y - 1).toNat).take z.toNat

def substr (s : String) (y z : Int) : String := ⟨substrL s.toList y z⟩

/-- SQLite `REPLACE(s, c, '')` for a single-character pattern (the source only
replaces `','` and `'m'` by the empty string). -/
def removeChar (c : Char) (s : String) : String := ⟨s.toList.filter (· ≠ c)⟩

/-! ## SQLite numeric casts -/

/-- The whitespace characters skipped by SQLite's text-to-number parsing. -/
def isSpaceCh (c : Char) : Bool :=
  c = ' ' ∨ c = '\t' ∨ c = '\n' ∨ c = '\r' ∨ c = '\x0b' ∨ c = '\x0c'

/-- Decimal value of a digit list (most significant first). -/
def digitsVal (l : List Char) : Nat := l.foldl (fun a c => 10 * a + (c.toNat - 48)) 0

/-- SQLite `CAST(s AS INT)` on text: skip leading whitespace, optional sign,
then the longest digit prefix; a string with no digit prefix casts to 0. -/
def castIntL (l : List Char) : Int :=
  let t := l.dropWhile isSpaceCh
  if t.head? = some '-' then -(digitsVal (t.tail.takeWhile Char.isDigit) : Int)
  else if t.head? = some '+' then (digitsVal (t.tail.takeWhile Char.isDigit) : Int)
  else (digitsVal (t.takeWhile Char.isDigit) : Int)

def castInt (s : String) : Int := castIntL s.toList

/-- Exponent suffix of SQLite's text-to-real parsing (`e`/`E`, optional sign,
digit run; a bare `e` contributes exponent 0). -/
def expPart (l : List Char) : Int :=
  if l.head? = some 'e' ∨ l.head? = some 'E' then
    let r := l.tail
    if r.head? = some '-' then -(digitsVal (r.tail.takeWhile Char.isDigit) : Int)
    else if r.head? = some '+' then (digitsVal (r.tail.takeWhile Char.isDigit) : Int)
    else (digitsVal (r.takeWhile Char.isDigit) : Int)
  else 0

/-- SQLite `CAST(s AS FLOAT)` on text, with real numbers idealized as `ℚ`:
skip leading whitespace, optional sign, integer digits, optional fractional
digits, optional exponent; a string with no numeric prefix casts to 0.0.
It never raises. -/
def castRealL (l : List Char) : ℚ :=
  let t0 := l.dropWhile isSpaceCh
  let sgn : ℚ := if t0.head? = some '-' then -1 else 1
  let t := if t0.head? = some '-' ∨ t0.head? = some '+' then t0.tail else t0
  let ip := t.takeWhile Char.isDigit
  let t2 := t.dropWhile Char.isDigit
  let fp := if t2.head? = some '.' then t2.tail.takeWhile Char.isDigit else []
  let t3 := if t2.head? = some '.' then t2.tail.dropWhile Char.isDigit else t2
  let mant : ℚ := (digitsVal ip : ℚ) + (digitsVal fp : ℚ) / (10 : ℚ) ^ fp.length
  let e : Int := if ip.length + fp.length = 0 then 0 else expPart t3
  sgn * mant * (10 : ℚ) ^ e

def castReal (s : String) : ℚ := castRealL s.toList

/-! ## Python `int(...)` on strings

Models the conversion done by `astype(int)` / `int(...)`: strip whitespace,
optional sign, then a nonempty all-digit run; anything else raises
`ValueError`, modelled as `none`.  (Digit-grouping underscores are omitted:
they cannot occur in a valid numeral of the two-character slices this program
converts.) -/

def stripSpaces (l : List Char) : List Char :=
  ((l.dropWhile isSpaceCh).reverse.dropWhile isSpaceCh).reverse

def pyIntL (t : List Char) : Option Int :=
  if t.head? = some '-' then
    if t.tail ≠ [] ∧ t.tail.all Char.isDigit then some (-(digitsVal t.tail : Int)) else none
  else if t.head? = some '+' then
    if t.tail ≠ [] ∧ t.tail.all Char.isDigit then some (digitsVal t.tail : Int) else none
  else if t ≠ [] ∧ t.all Char.isDigit then some (digitsVal t : Int) else none

def pyInt (s : String) : Option Int := pyIntL (stripSpaces s.toList)

/-! ## SQLite `DATE(...)` -/

/-- A calendar-date triple as stored in the `Travel_Date` column text. -/
structure CalDate where
  y : Nat
  m : Nat
  d : Nat
deriving DecidableEq, Repr

/-- SQLite `DATE(s)` restricted to the inputs reachable here (strings of at
most 10 characters built by joining three `SUBSTR` pieces with `'-'`):
accepts exactly the layout `YYYY-MM-DD` with all-digit fields, month in
1..12 and day in 1..31, and keeps the components verbatim — the day is NOT
validated against the month's length (observed SQLite behavior:
`DATE('2024-02-30')` yields `'2024-02-30'`).  Anything else yields NULL. -/
def sqliteDate (s : String) : Option CalDate :=
  match s.toList with
  | [y1, y2, y3, y4, '-', m1, m2, '-', d1, d2] =>
    if (y1.isDigit ∧ y2.isDigit ∧ y3.isDigit ∧ y4.isDigit ∧
        m1.isDigit ∧ m2.isDigit ∧ d1.isDigit ∧ d2.isDigit) then
      let Y := digitsVal [y1, y2, y3, y4]
      let M := digitsVal [m1, m2]
      let D := digitsVal [d1, d2]
      if 1 ≤ M ∧ M ≤ 12 ∧ 1 ≤ D ∧ D ≤ 31 then some ⟨Y, M, D⟩ else none
    else none
  | _ => none

/-- Whether `y-m-d` is a real calendar date (Gregorian month lengths): what
the specification means by "a valid calendar date". -/
def daysInMonth (y m : Nat) : Nat :=
  if m = 2 then (if (y % 4 = 0 ∧ y % 100 ≠ 0) ∨ y % 400 = 0 then 29 else 28)
  else if m = 4 ∨ m = 6 ∨ m = 9 ∨ m = 11 then 30
  else 31

def isValidCalendarDate (y m d : Nat) : Prop :=
  1 ≤ m ∧ m ≤ 12 ∧ 1 ≤ d ∧ d ≤ daysInMonth y m

instance (y m d : Nat) : Decidable (isValidCalendarDate y m d) := by
  unfold isValidCalendarDate; infer_instance

/-! ## Data model and Relation Builder (`query_cleaned`)

A raw record carries the eight source columns; every field may be missing
(a CSV blank becomes NaN in pandas and NULL in the SQLite table, modelled as
`none`).  SQLite's string and cast functions propagate NULL, so each derived
column is `Option`-valued via `Option.map`/`Option.bind`. -/

structure RawRecord where
  company : Option String
  cabinClass : Option String
  origin : Option String
  destination : Option String
  flightPrice : Option String
  durationTime : Option String
  date : Option String
  departureTime : Option String
deriving DecidableEq, Repr

structure CleanedRecord where
  raw : RawRecord
  price_Float : Option ℚ
  duration_Minutes : Option Int
  travel_Date : Option CalDate
  departure_Hour : Option String
deriving DecidableEq, Repr

/-- `CAST(REPLACE([Flight Price], ',', '') AS FLOAT)` on one non-NULL value. -/
def parse_price (s : String) : ℚ := castReal (removeChar ',' s)

/-- The `Duration_Minutes` CASE expression on one non-NULL value:
`WHEN [Duration Time] LIKE '%h %m' THEN CAST(SUBSTR(.., 1, INSTR(.., 'h') - 1) AS INT) * 60
 + CAST(SUBSTR(.., INSTR(.., 'h') + 2, LENGTH(..)) AS INT)
 WHEN .. LIKE '%h' THEN CAST(SUBSTR(.., 1, INSTR(.., 'h') - 1) AS INT) * 60
 ELSE CAST(REPLACE(.., 'm', '') AS INT)`. -/
def parse_duration (s : String) : Int :=
  if likeM patHM s.toList then
    castInt (substr s 1 ((instr s 'h' : Int) - 1)) * 60 +
      castInt (substr s ((instr s 'h' : Int) + 2) (s.toList.length : Int))
  else if likeM patH s.toList then
    castInt (substr s 1 ((instr s 'h' : Int) - 1)) * 60
  else
    castInt (removeChar 'm' s)

/-- `DATE(SUBSTR([Date], 7, 4) || '-' || SUBSTR([Date], 4, 2) || '-' ||
SUBSTR([Date], 1, 2))` on one non-NULL value. -/
def parse_date (s : String) : Option CalDate :=
  sqliteDate (substr s 7 4 ++ "-" ++ substr s 4 2 ++ "-" ++ substr s 1 2)

/-- `SUBSTR([Departure Time], 1, 2)` on one non-NULL value: the first two
characters, kept as text. -/
def parse_departure_hour (s : String) : String := substr s 1 2

/-- One row of `query_cleaned`: `SELECT *` keeps all raw columns and adds the
four derived ones; SQLite functions map NULL inputs to NULL outputs. -/
def cleanRow (r : RawRecord) : CleanedRecord where
  raw := r
  price_Float := r.flightPrice.map parse_price
  duration_Minutes := r.durationTime.map parse_duration
  travel_Date := r.date.bind parse_date
  departure_Hour := r.departureTime.map parse_departure_hour

/-- `df_cleaned = pd.read_sql_query(query_cleaned, conn)`: a pure row-wise
map over the raw table, no filtering. -/
def query_cleaned (rs : List RawRecord) : List CleanedRecord := rs.map cleanRow

/-! ## Numeric-range bound derivation

`min_hour = int(df_cleaned['Departure_Hour'].min())` and friends.
`Series.min()` skips missing values and is NaN on an empty or all-missing
column; `int(NaN)` raises `ValueError`, and `int(..)` of a non-numeric string
also raises — both modelled as `none`.  There is no fallback branch in the
source. -/

/-- Minimum of the defined values under a decidable linear order;
`none` when there are no defined values (pandas `min()` = NaN). -/
def seriesMin {α : Type} [LinearOrder α] (l : List α) : Option α :=
  l.foldl (fun acc v => match acc with
    | none => some v
    | some w => some (min w v)) none

def seriesMax {α : Type} [LinearOrder α] (l : List α) : Option α :=
  l.foldl (fun acc v => match acc with
    | none => some v
    | some w => some (max w v)) none

/-- Python `int(q)` on a float idealized as `ℚ`: truncation toward zero. -/
def pyIntOfRat (q : ℚ) : Int := q.num.tdiv (q.den : Int)

def min_hour (rows : List CleanedRecord) : Option Int :=
  (seriesMin (rows.filterMap (·.departure_Hour))).bind pyInt

def max_hour (rows : List CleanedRecord) : Option Int :=
  (seriesMax (rows.filterMap (·.departure_Hour))).bind pyInt

def min_price (rows : List CleanedRecord) : Option Int :=
  (seriesMin (rows.filterMap (·.price_Float))).map pyIntOfRat

def max_price (rows : List CleanedRecord) : Option Int :=
  (seriesMax (rows.filterMap (·.price_Float))).map pyIntOfRat

def min_duration (rows : List CleanedRecord) : Option Int :=
  seriesMin (rows.filterMap (·.duration_Minutes))

def max_duration (rows : List CleanedRecord) : Option Int :=
  seriesMax (rows.filterMap (·.duration_Minutes))

/-! ## Filter Engine (`df_filtered`) -/

/-- The user-selected filter values: four multiselects and three sliders. -/
structure FilterSpec where
  selectedAirlines : List String
  selectedClasses : List String
  selectedOrigins : List String
  selectedDestinations : List String
  hourRange : Int × Int
  priceRange : Int × Int
  durationRange : Int × Int

/-- pandas `Series.isin(sel)`: a missing value is in no selection. -/
def isinOpt (sel : List String) : Option String → Bool
  | none => false
  | some v => sel.contains v

/-- The conjunction of the ten boolean masks on one row.  NaN numeric values
compare false on both bounds, so a row with an undefined price or duration is
excluded.  The departure-hour mask uses the already-converted integer. -/
def rowMask (s : FilterSpec) (hourInt : Option Int) (r : CleanedRecord) : Bool :=
  isinOpt s.selectedAirlines r.raw.company &&
  isinOpt s.selectedClasses r.raw.cabinClass &&
  isinOpt s.selectedOrigins r.raw.origin &&
  isinOpt s.selectedDestinations r.raw.destination &&
  (match hourInt with
   | some hv => decide (s.hourRange.1 ≤ hv) && decide (hv ≤ s.hourRange.2)
   | none => false) &&
  (match r.price_Float with
   | some p => decide ((s.priceRange.1 : ℚ) ≤ p) && decide (p ≤ (s.priceRange.2 : ℚ))
   | none => false) &&
  (match r.duration_Minutes with
   | some d => decide (s.durationRange.1 ≤ d) && decide (d ≤ s.durationRange.2)
   | none => false)

/-- `df_filtered`: `df_cleaned['Departure_Hour'].astype(int)` converts the
whole column before any mask is applied, so one inconvertible (or missing)
`Departure_Hour` value anywhere in the cleaned relation raises — modelled as
`none`.  Otherwise the rows satisfying all masks are kept in order. -/
def df_filtered (rows : List CleanedRecord) (s : FilterSpec) :
    Option (List CleanedRecord) :=
  if rows.all (fun r => (r.departure_Hour.bind pyInt).isSome) then
    some (rows.filter (fun r => rowMask s (r.departure_Hour.bind pyInt) r))
  else none

/-! ## Aggregate Catalog (`queries`)

Each entry is a SQL query over `flights_clean_filtered`.  `GROUP BY` groups
equal keys (NULLs together); without an `ORDER BY` the group order is
unspecified, modelled here as first-occurrence order.  `AVG` sums and counts
only the non-NULL inputs and is NULL on an empty group; `COUNT(*)` counts
rows.  `ORDER BY x DESC` puts NULL keys last (NULL sorts smallest). -/

/-- SQLite `AVG` accumulator: running sum and count over non-NULL inputs. -/
def sqlAvgStep (p : ℚ × Nat) (v : Option ℚ) : ℚ × Nat :=
  match v with
  | none => p
  | some q => (p.1 + q, p.2 + 1)

/-- SQLite `AVG(column)` over a group: NULL inputs contribute to neither the
sum nor the count; NULL when every input is NULL. -/
def sqlAvg (l : List (Option ℚ)) : Option ℚ :=
  let p := l.foldl sqlAvgStep (0, 0)
  if p.2 = 0 then none else some (p.1 / (p.2 : ℚ))

/-- SQLite `ROUND(q, 2)`: half away from zero, idealized on `ℚ`. -/
def round2 (q : ℚ) : ℚ :=
  (if 0 ≤ q then ((⌊q * 100 + 1 / 2⌋ : Int) : ℚ) else -((⌊-(q * 100) + 1 / 2⌋ : Int) : ℚ)) / 100

/-- The specification's notion of a group average: the rounded mean of the
DEFINED values only (undefined values excluded from numerator and
denominator), undefined when no value is defined.  Stated separately from
`sqlAvg` so the aggregation code can be compared against it. -/
def specMeanRounded (ds : List ℚ) : Option ℚ :=
  if ds.length = 0 then none else some (round2 (ds.sum / (ds.length : ℚ)))

/-- Distinct values in first-occurrence order (the grouping keys). -/
def uniqueKeys {κ : Type} [DecidableEq κ] : List κ → List κ
  | l => l.foldl (fun acc k => if k ∈ acc then acc else acc ++ [k]) []

/-- `GROUP BY key`: each distinct key with its rows. -/
def groupRows {κ : Type} [DecidableEq κ] (key : CleanedRecord → κ)
    (rows : List CleanedRecord) : List (κ × List CleanedRecord) :=
  (uniqueKeys (rows.map key)).map (fun k => (k, rows.filter (fun r => key r = k)))

/-- `ORDER BY k(x) DESC` (larger keys first). -/
def descRel {α β : Type} [LinearOrder β] (k : α → β) : α → α → Prop :=
  fun a b => k b ≤ k a

instance {α β : Type} [LinearOrder β] (k : α → β) : DecidableRel (descRel k) :=
  fun a b => inferInstanceAs (Decidable (k b ≤ k a))

instance {α β : Type} [LinearOrder β] (k : α → β) : IsTotal α (descRel k) :=
  ⟨fun a b => (le_total (k b) (k a)).imp id id⟩

instance {α β : Type} [LinearOrder β] (k : α → β) : IsTrans α (descRel k) :=
  ⟨fun _ _ _ h1 h2 => le_trans h2 h1⟩

def sortByDesc {α β : Type} [LinearOrder β] (k : α → β) (l : List α) : List α :=
  List.insertionSort (descRel k) l

/-- `ORDER BY k(x) ASC` (smaller keys first). -/
def ascRel {α β : Type} [LinearOrder β] (k : α → β) : α → α → Prop :=
  fun a b => k a ≤ k b

instance {α β : Type} [LinearOrder β] (k : α → β) : DecidableRel (ascRel k) :=
  fun a b => inferInstanceAs (Decidable (k a ≤ k b))

def sortByAsc {α β : Type} [LinearOrder β] (k : α → β) (l : List α) : List α :=
  List.insertionSort (ascRel k) l

/-- Sort key embedding a nullable numeric measure: NULL below every value. -/
def optRatKey : Option ℚ → WithBot ℚ
  | none => ⊥
  | some q => (q : WithBot ℚ)

def optStrKey : Option String → WithBot String
  | none => ⊥
  | some s => (s : WithBot String)

/-- `Travel_Date` is the text `YYYY-MM-DD`, whose lexicographic order agrees
with this numeric encoding. -/
def dateKey : Option CalDate → WithBot Nat
  | none => ⊥
  | some d => ((d.y * 10000 + d.m * 100 + d.d : Nat) : WithBot Nat)

/-- SQL `a || mid || b`: NULL if either operand is NULL. -/
def concatSql (a : Option String) (mid : String) (b : Option String) : Option String :=
  match a, b with
  | some x, some y => some (x ++ mid ++ y)
  | _, _ => none

/-- SQL `a || suf`. -/
def appendSql (a : Option String) (suf : String) : Option String :=
  a.map (fun x => x ++ suf)

/-- `"Average Price per Airline"`: group by Company, `ROUND(AVG(Price_Float), 2)`,
`ORDER BY Average_Price DESC`. -/
def avgPricePerAirline (rows : List CleanedRecord) : List (Option String × Option ℚ) :=
  sortByDesc (fun t => optRatKey t.2)
    ((groupRows (·.raw.company) rows).map
      (fun g => (g.1, (sqlAvg (g.2.map (·.price_Float))).map round2)))

/-- `"Flight Count per Route"`: group by `Origin || ' → ' || Destination`,
`COUNT(*)`, `ORDER BY Total_Flights DESC`. -/
def flightCountPerRoute (rows : List CleanedRecord) : List (Option String × Nat) :=
  sortByDesc (fun t => t.2)
    ((groupRows (fun r => concatSql r.raw.origin " → " r.raw.destination) rows).map
      (fun g => (g.1, g.2.length)))

/-- `"Average Duration per Route"`: group by route, `ROUND(AVG(Duration_Minutes), 2)`,
`ORDER BY Avg_Duration_Min DESC`. -/
def avgDurationPerRoute (rows : List CleanedRecord) : List (Option String × Option ℚ) :=
  sortByDesc (fun t => optRatKey t.2)
    ((groupRows (fun r => concatSql r.raw.origin " → " r.raw.destination) rows).map
      (fun g => (g.1, (sqlAvg (g.2.map (fun r => r.duration_Minutes.map (fun i => (i : ℚ))))).map round2)))

/-- `"Cabin Class Share"`: group by Cabin Class, `COUNT(*)`, no `ORDER BY`. -/
def cabinClassShare (rows : List CleanedRecord) : List (Option String × Nat) :=
  (groupRows (·.raw.cabinClass) rows).map (fun g => (g.1, g.2.length))

/-- `"Flights per Airline"`: group by Company, `COUNT(*)`, `ORDER BY Flights DESC`. -/
def flightsPerAirline (rows : List CleanedRecord) : List (Option String × Nat) :=
  sortByDesc (fun t => t.2)
    ((groupRows (·.raw.company) rows).map (fun g => (g.1, g.2.length)))

/-- `"Price Trends Over Time"`: group by Travel_Date, `ROUND(AVG(Price_Float), 2)`,
`ORDER BY Travel_Date` (ascending). -/
def priceTrendsOverTime (rows : List CleanedRecord) : List (Option CalDate × Option ℚ) :=
  sortByAsc (fun t => dateKey t.1)
    ((groupRows (·.travel_Date) rows).map
      (fun g => (g.1, (sqlAvg (g.2.map (·.price_Float))).map round2)))

/-- `"Departure Hour Popularity"`: group by `Departure_Hour || ':00'`,
`COUNT(*)`, `ORDER BY Flight_Count DESC`. -/
def departureHourPopularity (rows : List CleanedRecord) : List (Option String × Nat) :=
  sortByDesc (fun t => t.2)
    ((groupRows (fun r => appendSql r.departure_Hour ":00") rows).map
      (fun g => (g.1, g.2.length)))

/-- `"Cabin Class per Airline"`: group by (Company, Cabin Class), `COUNT(*)`,
`ORDER BY Company, Count DESC`. -/
def cabinClassPerAirline (rows : List CleanedRecord) :
    List ((Option String × Option String) × Nat) :=
  sortByAsc (fun t => toLex (optStrKey t.1.1, OrderDual.toDual t.2))
    ((groupRows (fun r => (r.raw.company, r.raw.cabinClass)) rows).map
      (fun g => (g.1, g.2.length)))

/-- `"Price Distribution by Airline"`: raw `(Company, Price_Float)` pass-through. -/
def priceDistributionByAirline (rows : List CleanedRecord) :
    List (Option String × Option ℚ) :=
  rows.map (fun r => (r.raw.company, r.price_Float))

/-- `"Busiest Airports (Top 15)"`: group by Origin, `COUNT(*)` and
`ROUND(AVG(Price_Float), 2)`, `ORDER BY Departure_Count DESC LIMIT 15`
(`LIMIT` applies to the ordered result). -/
def busiestAirports (rows : List CleanedRecord) :
    List (Option String × Nat × Option ℚ) :=
  (sortByDesc (fun t => t.2.1)
    ((groupRows (·.raw.origin) rows).map
      (fun g => (g.1, g.2.length, (sqlAvg (g.2.map (·.price_Float))).map round2)))).take 15

/-- `"Price vs Duration Scatter Plot"`: raw `(Price_Float, Duration_Minutes,
Company)` pass-through. -/
def priceVsDurationScatter (rows : List CleanedRecord) :
    List (Option ℚ × Option Int × Option String) :=
  rows.map (fun r => (r.price_Float, r.duration_Minutes, r.raw.company))

/-! ## Chart selection (`queries` keys and the dispatch chain) -/

/-- The keys of the `queries` dict, in source order. -/
def queryNames : List String :=
  ["Average Price per Airline",
   "Flight Count per Route",
   "Average Duration per Route",
   "Cabin Class Share",
   "Flights per Airline",
   "Price Trends Over Time",
   "Departure Hour Popularity",
   "Cabin Class per Airline",
   "Price Distribution by Airline",
   "Busiest Airports (Top 15)",
   "Price vs Duration Scatter Plot"]

/-- The kind of figure each branch of the `if/elif` dispatch chain builds;
`placeholder` is the final `else` branch ("Chart type not implemented yet."). -/
inductive ChartKind
  | bar
  | pie
  | line
  | box
  | dualAxis
  | scatter
  | placeholder
deriving DecidableEq, Repr

/-- The `if chart_option == .. / elif .. / else` chain, in source order. -/
def dispatchChart (name : String) : ChartKind :=
  if name = "Average Price per Airline" then .bar
  else if name = "Flight Count per Route" then .bar
  else if name = "Average Duration per Route" then .bar
  else if name = "Cabin Class Share" then .pie
  else if name = "Flights per Airline" then .bar
  else if name = "Price Trends Over Time" then .line
  else if name = "Departure Hour Popularity" then .bar
  else if name = "Cabin Class per Airline" then .bar
  else if name = "Price Distribution by Airline" then .box
  else if name = "Busiest Airports (Top 15)" then .dualAxis
  else if name = "Price vs Duration Scatter Plot" then .scatter
  else .placeholder

/-- Running one selection end to end: `queries[chart_option]` raises
`KeyError` for a name that is not a catalog key (modelled as `none`); the
dispatch chain only runs after that lookup succeeded. -/
def runSelected (name : String) : Option ChartKind :=
  if name ∈ queryNames then some (dispatchChart name) else none

/-! ## Auxiliary predicates and concrete sample data used by the theorems -/

/-- The ten decimal digit characters. -/
def digitChars : List Char := ['0', '1', '2', '3', '4', '5', '6', '7', '8', '9']

/-- A (possibly empty) string of decimal digits. -/
def DigitStr (l : List Char) : Prop := ∀ c ∈ l, c ∈ digitChars

instance (l : List Char) : Decidable (DigitStr l) := by
  unfold DigitStr; infer_instance

/-- A fully well-formed raw record. -/
def rawBase : RawRecord where
  company := some "AI"
  cabinClass := some "Economy"
  origin := some "DEL"
  destination := some "BOM"
  flightPrice := some "5,000"
  durationTime := some "2h 30m"
  date := some "05-03-2024"
  departureTime := some "09:45"

/-- A raw record with every field missing. -/
def rawAllNull : RawRecord where
  company := none
  cabinClass := none
  origin := none
  destination := none
  flightPrice := none
  durationTime := none
  date := none
  departureTime := none

/-- A fully defined cleaned record (as produced from a clean raw row). -/
def crBase : CleanedRecord where
  raw := rawBase
  price_Float := some 5000
  duration_Minutes := some 150
  travel_Date := some ⟨2024, 3, 5⟩
  departure_Hour := some "09"

/-- Three same-airline cleaned rows, one with an undefined price:
prices 10, NULL, 20. -/
def rowsOneUndefinedPrice : List CleanedRecord :=
  [{ crBase with raw := { rawBase with company := some "A" }, price_Float := some 10 },
   { crBase with raw := { rawBase with company := some "A" }, price_Float := none },
   { crBase with raw := { rawBase with company := some "A" }, price_Float := some 20 }]

/-- A filter specification wide enough to keep `rawBase`-like rows. -/
def wideSpec : FilterSpec where
  selectedAirlines := ["AI", "A"]
  selectedClasses := ["Economy"]
  selectedOrigins := ["DEL"]
  selectedDestinations := ["BOM"]
  hourRange := (0, 23)
  priceRange := (0, 100000)
  durationRange := (0, 100000)

/-- `wideSpec` with the airline multiselect cleared. -/
def noAirlineSpec : FilterSpec := { wideSpec with selectedAirlines := [] }

/-- Twenty origin names. -/
def sampleOrigins : List String :=
  ["A", "B", "C", "D", "E", "F", "G", "H", "I", "J",
   "K", "L", "M", "N", "O", "P", "Q", "R", "S", "T"]

/-- 210 cleaned rows: origin number `i` (0-based) occurs `i + 1` times, in a
group order (first occurrence) that is the reverse of the count order, so a
truncation done before sorting would keep the wrong groups. -/
def sample20 : List CleanedRecord :=
  query_cleaned
    ((List.range 20).flatMap (fun i =>
      List.replicate (i + 1) { rawAllNull with origin := some (sampleOrigins.getD i "") }))

/-! ## Claim C3 — cleaning preserves the row count -/

/-- C3: for every raw record set, including the empty one, the Relation
Builder produces exactly one cleaned record per raw record; cleaning is a
pure row-wise map and never drops or adds a row, even when fields fail to
parse. -/
theorem cleaning_preserves_rowcount (rs : List RawRecord) :
    (query_cleaned rs).length = rs.length := by
  simp [query_cleaned]

/-! ## Claim C2 — `parse_price` -/

/-- C2 (counterexample): on the empty string, `parse_price` evaluates to the
number 0.0 — the price column holds the defined value 0, not NaN/undefined,
refuting "the resulting price value is undefined/NaN rather than any numeric
value". -/
theorem parse_price_empty_is_zero :
    parse_price "" = 0 ∧
    (cleanRow { rawBase with flightPrice := some "" }).price_Float = some 0 := by
  have h : parse_price "" = 0 := by
    have h1 : removeChar ',' "" = "" := by decide
    rw [parse_price, h1, castReal]
    simp +decide [castRealL, isSpaceCh, expPart, digitsVal]
  exact ⟨h, by simp [cleanRow, h]⟩

/-- C2 (amended): `parse_price` removes grouping commas and casts the
remainder with SQLite's numeric-prefix semantics, so
`parse_price "12,345.50" = 12345.50`; it never raises, and a non-numeric
remainder (e.g. the empty string) yields the number 0.0, not NaN — the price
column is undefined only when the raw price field itself is missing. -/
theorem parse_price_spec :
    (∀ r : RawRecord, ∀ s : String, r.flightPrice = some s →
      (cleanRow r).price_Float = some (parse_price s)) ∧
    (∀ r : RawRecord, r.flightPrice = none → (cleanRow r).price_Float = none) ∧
    parse_price "12,345.50" = 12345.50 ∧
    parse_price "" = 0 := by
  refine ⟨?_, ?_, ?_, ?_⟩
  · intro r s h; simp [cleanRow, h]
  · intro r h; simp [cleanRow, h]
  · have h1 : removeChar ',' "12,345.50" = "12345.50" := by decide
    rw [parse_price, h1, castReal]
    simp +decide [castRealL, List.dropWhile_cons, List.takeWhile_cons, isSpaceCh,
      expPart, digitsVal]
    norm_num
  · have h1 : removeChar ',' "" = "" := by decide
    rw [parse_price, h1, castReal]
    simp +decide [castRealL, isSpaceCh, expPart, digitsVal]

/-- Witness for C2's amended theorem at the concrete input `"12,345.50"`. -/
theorem parse_price_spec_witness :
    (cleanRow { rawBase with flightPrice := some "12,345.50" }).price_Float =
      some (parse_price "12,345.50") :=
  parse_price_spec.1 { rawBase with flightPrice := some "12,345.50" } "12,345.50" rfl

/-! ## Claim C5 — slider bound derivation on degenerate input -/

/-- C5 (counterexample): on the empty Cleaned Relation — and on one whose
source column is entirely missing — every min/max bound derivation fails
(`int(Series.min())` raises on NaN, modelled as `none`); no fallback value 0
is produced. -/
theorem bounds_empty_input_none :
    min_hour [] = none ∧ max_hour [] = none ∧ min_price [] = none ∧
    max_price [] = none ∧ min_duration [] = none ∧ max_duration [] = none ∧
    min_hour (query_cleaned [rawAllNull]) = none ∧
    min_price (query_cleaned [rawAllNull]) = none ∧
    min_duration (query_cleaned [rawAllNull]) = none := by
  decide

/-- C5 (amended): deriving the numeric-range bounds on an empty Cleaned
Relation, or one whose relevant column is entirely undefined, raises
(pandas `min`/`max` is NaN there and `int(NaN)` raises `ValueError`); no
fallback value is produced.  On a relation with defined values the
derivation succeeds. -/
theorem bounds_raise_on_degenerate :
    (∀ rows : List CleanedRecord, rows.filterMap (·.departure_Hour) = [] →
      min_hour rows = none ∧ max_hour rows = none) ∧
    (∀ rows : List CleanedRecord, rows.filterMap (·.price_Float) = [] →
      min_price rows = none ∧ max_price rows = none) ∧
    (∀ rows : List CleanedRecord, rows.filterMap (·.duration_Minutes) = [] →
      min_duration rows = none ∧ max_duration rows = none) ∧
    min_hour (query_cleaned [rawBase]) = some 9 := by
  refine ⟨?_, ?_, ?_, by decide⟩ <;>
    · intro rows h
      constructor <;>
        simp [min_hour, max_hour, min_price, max_price, min_duration,
          max_duration, seriesMin, seriesMax, h]

/-- Witness for C5's amended theorem at the empty relation. -/
theorem bounds_raise_on_degenerate_witness :
    min_hour [] = none ∧ max_hour [] = none :=
  bounds_raise_on_degenerate.1 [] rfl

/-! ## Claim C9 — `parse_date` -/

/-- C9 (counterexample): `parse_date "30-02-2024"` reorders to `"2024-02-30"`,
which is not a valid calendar date, yet the parse succeeds and stores the
components verbatim instead of failing (SQLite `DATE` does not check the day
against the month's length). -/
theorem parse_date_accepts_feb30 :
    parse_date "30-02-2024" = some ⟨2024, 2, 30⟩ ∧
    ¬ isValidCalendarDate 2024 2 30 := by
  decide

/-- C9 (amended): `parse_date` reorders a `DD-MM-YYYY` string into
`YYYY-MM-DD` order and parses it, so `"05-03-2024"` yields 2024-03-05; it
fails only when the reordered string is not all-digit `YYYY-MM-DD` with month
in 1..12 and day in 1..31 — a day impossible for its month (e.g. Feb 30) is
kept verbatim, not rejected. -/
theorem parse_date_spec :
    parse_date "05-03-2024" = some ⟨2024, 3, 5⟩ ∧
    parse_date "30-02-2024" = some ⟨2024, 2, 30⟩ ∧
    parse_date "garbage" = none ∧
    parse_date "32-01-2024" = none ∧
    parse_date "05-13-2024" = none ∧
    parse_date "00-01-2024" = none := by
  decide

/-! ## Claim C10 — unknown catalog name -/

/-- C10: selecting a name that is not a key of the `queries` dict fails at the
`queries[chart_option]` lookup (a `KeyError`, modelled as `none`) before any
figure is built: the condition is signalled and the "Chart type not
implemented yet." placeholder is never rendered for it. -/
theorem unknown_catalog_name_fatal (name : String) (h : name ∉ queryNames) :
    runSelected name = none ∧ runSelected name ≠ some ChartKind.placeholder := by
  simp [runSelected, h]

/-- Witness for C10 at the concrete unknown name `"Monthly Flight Volume"`
(a key of `chart_titles` but not of `queries`). -/
theorem unknown_catalog_name_fatal_witness :
    runSelected "Monthly Flight Volume" = none ∧
    runSelected "Monthly Flight Volume" ≠ some ChartKind.placeholder :=
  unknown_catalog_name_fatal "Monthly Flight Volume" (by decide)

/-! ## Claim C7 — empty categorical selection -/

/-- An empty multiselect matches no value, including a missing one. -/
theorem isinOpt_nil (v : Option String) : isinOpt [] v = false := by
  cases v <;> simp [isinOpt]

/-- C7: when at least one categorical multiselect is empty, every row fails
its membership mask, so whenever the filter runs without raising its output
is the empty relation, and every Aggregate Catalog entry over that empty
relation is an empty Result Relation — no error anywhere. -/
theorem empty_selection_empty_result (rows : List CleanedRecord) (s : FilterSpec)
    (hsel : s.selectedAirlines = [] ∨ s.selectedClasses = [] ∨
      s.selectedOrigins = [] ∨ s.selectedDestinations = [])
    (out : List CleanedRecord) (hout : df_filtered rows s = some out) :
    out = [] ∧
    avgPricePerAirline out = [] ∧
    flightCountPerRoute out = [] ∧
    avgDurationPerRoute out = [] ∧
    cabinClassShare out = [] ∧
    flightsPerAirline out = [] ∧
    priceTrendsOverTime out = [] ∧
    departureHourPopularity out = [] ∧
    cabinClassPerAirline out = [] ∧
    priceDistributionByAirline out = [] ∧
    busiestAirports out = [] ∧
    priceVsDurationScatter out = [] := by
  have hmask : ∀ (hi : Option Int) (r : CleanedRecord), rowMask s hi r = false := by
    intro hi r
    rcases hsel with h | h | h | h <;> simp [rowMask, h, isinOpt_nil]
  have hempty : out = [] := by
    unfold df_filtered at hout
    split at hout
    · have := Option.some.inj hout
      rw [← this]
      exact List.filter_eq_nil_iff.mpr (fun a _ => by simp [hmask])
    · exact absurd hout (by simp)
  subst hempty
  exact ⟨rfl, rfl, rfl, rfl, rfl, rfl, rfl, rfl, rfl, rfl, rfl, rfl⟩

/-- Witness for C7: a concrete one-row relation filtered with a cleared
airline multiselect. -/
theorem empty_selection_empty_result_witness :
    ([] : List CleanedRecord) = [] ∧
    avgPricePerAirline [] = [] ∧
    flightCountPerRoute [] = [] ∧
    avgDurationPerRoute [] = [] ∧
    cabinClassShare [] = [] ∧
    flightsPerAirline [] = [] ∧
    priceTrendsOverTime [] = [] ∧
    departureHourPopularity [] = [] ∧
    cabinClassPerAirline [] = [] ∧
    priceDistributionByAirline [] = [] ∧
    busiestAirports [] = [] ∧
    priceVsDurationScatter [] = [] :=
  empty_selection_empty_result [crBase] noAirlineSpec (Or.inl rfl) [] (by decide)

/-! ## Claim C6 — departure-hour parsing and filtering -/

/-- C6 (counterexample): the two-character hour slice is never validated
against [0,23] — `"99:00"` yields the defined hour 99, not NaN — and a
non-numeric slice such as `"ab:30"` makes the filter's `astype(int)` raise
instead of degrading to an undefined value. -/
theorem departure_hour_unchecked :
    (cleanRow { rawAllNull with departureTime := some "99:00" }).departure_Hour = some "99" ∧
    ((cleanRow { rawAllNull with departureTime := some "99:00" }).departure_Hour.bind pyInt) =
      some 99 ∧
    ¬ ((99 : Int) ≤ 23) ∧
    df_filtered (query_cleaned [{ rawAllNull with departureTime := some "ab:30" }]) wideSpec =
      none := by
  decide

/-- C6 (amended): `parse_departure_hour` returns the first two characters of
the raw time string as unvalidated text; the filter then converts the whole
column with `int(...)`, which succeeds exactly when every row's slice is a
valid integer literal — yielding its (unrestricted, possibly out-of-[0,23])
value — and raises otherwise. -/
theorem departure_hour_spec :
    (∀ t : String, parse_departure_hour t = ⟨t.toList.take 2⟩) ∧
    (∀ rows : List CleanedRecord, ∀ s : FilterSpec,
      ((df_filtered rows s).isSome ↔ ∀ r ∈ rows, (r.departure_Hour.bind pyInt).isSome)) ∧
    pyInt "99" = some 99 ∧
    pyInt "9:" = none := by
  refine ⟨?_, ?_, by decide, by decide⟩
  · intro t
    simp [parse_departure_hour, substr, substrL]
  · intro rows s
    have hsome : (df_filtered rows s).isSome =
        rows.all (fun r => (r.departure_Hour.bind pyInt).isSome) := by
      unfold df_filtered
      split <;> simp_all
    rw [hsome]
    exact List.all_eq_true

/-! ## Claim C4 — NaN-safe averaging -/

/-- The `AVG` accumulator sums and counts exactly the defined inputs. -/
theorem sqlAvg_foldl (l : List (Option ℚ)) (a : ℚ) (n : Nat) :
    l.foldl sqlAvgStep (a, n) =
      (a + (l.filterMap id).sum, n + (l.filterMap id).length) := by
  induction l generalizing a n with
  | nil => simp
  | cons v t ih =>
    cases v with
    | none =>
      have hfm : List.filterMap id (none :: t) = List.filterMap id t := rfl
      rw [List.foldl_cons]
      show List.foldl sqlAvgStep (a, n) t = _
      rw [ih, hfm]
    | some q =>
      have hfm : List.filterMap id (some q :: t) = q :: List.filterMap id t := rfl
      rw [List.foldl_cons]
      show List.foldl sqlAvgStep (a + q, n + 1) t = _
      rw [ih, hfm]
      simp only [List.sum_cons, List.length_cons, Prod.mk.injEq]
      constructor
      · ring
      · omega

/-- `AVG` is the sum of the defined inputs over their number, NULL when
there are none. -/
theorem sqlAvg_eq (l : List (Option ℚ)) :
    sqlAvg l = if (l.filterMap id).length = 0 then none
      else some ((l.filterMap id).sum / ((l.filterMap id).length : ℚ)) := by
  unfold sqlAvg
  rw [sqlAvg_foldl]
  simp

/-- Each group's rounded `AVG`, before any ordering, is the spec's rounded
mean of the group's defined values only. -/
theorem groupAvg_mem {κ : Type} [DecidableEq κ] (key : CleanedRecord → κ)
    (f : CleanedRecord → Option ℚ) (rows : List CleanedRecord) (k : κ) (v : Option ℚ)
    (hmem : (k, v) ∈ (groupRows key rows).map
      (fun g => (g.1, (sqlAvg (g.2.map f)).map round2))) :
    v = specMeanRounded ((rows.filter (fun r => key r = k)).filterMap f) := by
  rw [groupRows, List.map_map] at hmem
  obtain ⟨k', _, heq⟩ := List.mem_map.mp hmem
  simp only [Function.comp] at heq
  cases heq
  rw [sqlAvg_eq, List.filterMap_map]
  have hid : (id ∘ f) = f := rfl
  rw [hid]
  unfold specMeanRounded
  by_cases h0 : ((rows.filter (fun r => key r = k)).filterMap f).length = 0
  · rw [if_pos h0, if_pos h0]
    rfl
  · rw [if_neg h0, if_neg h0]
    rfl

/-- C4: in every catalog average — price per airline, duration per route,
daily price, and the busiest-airports average price — each group's average
divides the sum of the group's defined values by the number of defined
values: rows with an undefined price/duration are excluded from both
numerator and denominator, and the average is NULL only when nothing in the
group is defined. -/
theorem avg_excludes_undefined_rows :
    (∀ (rows : List CleanedRecord) (c : Option String) (v : Option ℚ),
      (c, v) ∈ avgPricePerAirline rows →
      v = specMeanRounded
        ((rows.filter (fun r => r.raw.company = c)).filterMap (·.price_Float))) ∧
    (∀ (rows : List CleanedRecord) (rt : Option String) (v : Option ℚ),
      (rt, v) ∈ avgDurationPerRoute rows →
      v = specMeanRounded
        ((rows.filter (fun r => concatSql r.raw.origin " → " r.raw.destination = rt)).filterMap
          (fun r => r.duration_Minutes.map (fun i => (i : ℚ))))) ∧
    (∀ (rows : List CleanedRecord) (d : Option CalDate) (v : Option ℚ),
      (d, v) ∈ priceTrendsOverTime rows →
      v = specMeanRounded
        ((rows.filter (fun r => r.travel_Date = d)).filterMap (·.price_Float))) ∧
    (∀ (rows : List CleanedRecord) (o : Option String) (n : Nat) (v : Option ℚ),
      (o, n, v) ∈ busiestAirports rows →
      n = (rows.filter (fun r => r.raw.origin = o)).length ∧
      v = specMeanRounded
        ((rows.filter (fun r => r.raw.origin = o)).filterMap (·.price_Float))) := by
  refine ⟨?_, ?_, ?_, ?_⟩
  · intro rows c v hmem
    unfold avgPricePerAirline sortByDesc at hmem
    exact groupAvg_mem _ _ rows c v ((List.perm_insertionSort _ _).mem_iff.mp hmem)
  · intro rows rt v hmem
    unfold avgDurationPerRoute sortByDesc at hmem
    exact groupAvg_mem _ _ rows rt v ((List.perm_insertionSort _ _).mem_iff.mp hmem)
  · intro rows d v hmem
    unfold priceTrendsOverTime sortByAsc at hmem
    exact groupAvg_mem _ _ rows d v ((List.perm_insertionSort _ _).mem_iff.mp hmem)
  · intro rows o n v hmem
    unfold busiestAirports sortByDesc at hmem
    have hmem2 := (List.perm_insertionSort _ _).mem_iff.mp (List.mem_of_mem_take hmem)
    rw [groupRows, List.map_map] at hmem2
    obtain ⟨k', _, heq⟩ := List.mem_map.mp hmem2
    simp only [Function.comp] at heq
    cases heq
    refine ⟨rfl, ?_⟩
    rw [sqlAvg_eq, List.filterMap_map]
    have hid : (id ∘ fun r : CleanedRecord => r.price_Float) =
        (fun r : CleanedRecord => r.price_Float) := rfl
    rw [hid]
    unfold specMeanRounded
    by_cases h0 :
        ((rows.filter (fun r => r.raw.origin = o)).filterMap (·.price_Float)).length = 0
    · rw [if_pos h0, if_pos h0]
      rfl
    · rw [if_neg h0, if_neg h0]
      rfl

/-- Witness for C4: three rows of airline "A" with prices 10, NULL, 20 —
the computed average is 15, the mean of the two defined prices. -/
theorem avg_excludes_undefined_rows_witness :
    ((some "A", some (15 : ℚ)) ∈ avgPricePerAirline rowsOneUndefinedPrice) ∧
    (some (15 : ℚ)) = specMeanRounded
      ((rowsOneUndefinedPrice.filter
        (fun r => r.raw.company = some "A")).filterMap (·.price_Float)) :=
  ⟨by with_unfolding_all exact of_decide_eq_true rfl,
   avg_excludes_undefined_rows.1 rowsOneUndefinedPrice (some "A") (some 15)
     (by with_unfolding_all exact of_decide_eq_true rfl)⟩

/-! ## Claim C8 — "Busiest Airports (Top 15)" -/

/-- C8: the entry sorts the per-origin groups by descending count and only
then truncates (`LIMIT 15` applies to the ordered result): the output is
always descending in count with at most 15 rows, and on 210 rows over 20
distinct origins with counts 1..20 — ordered so that a truncation before the
sort would keep the wrong groups — the result is exactly the 15 largest
counts 20..6, in descending order. -/
theorem busiest_airports_top15 :
    (∀ rows : List CleanedRecord, (busiestAirports rows).length ≤ 15) ∧
    (∀ rows : List CleanedRecord,
      List.Pairwise (fun a b => b.2.1 ≤ a.2.1) (busiestAirports rows)) ∧
    (busiestAirports sample20).map (fun t => t.2.1) =
      [20, 19, 18, 17, 16, 15, 14, 13, 12, 11, 10, 9, 8, 7, 6] ∧
    (busiestAirports sample20).length = 15 := by
  refine ⟨?_, ?_, by decide, by decide⟩
  · intro rows
    unfold busiestAirports
    have := List.length_take 15 (sortByDesc (fun t : Option String × Nat × Option ℚ => t.2.1)
      ((groupRows (·.raw.origin) rows).map
        (fun g => (g.1, g.2.length, (sqlAvg (g.2.map (·.price_Float))).map round2))))
    omega
  · intro rows
    unfold busiestAirports sortByDesc
    exact List.Pairwise.sublist (List.take_sublist _ _)
      (List.sorted_insertionSort (descRel (fun t : Option String × Nat × Option ℚ => t.2.1)) _)

/-! ## Claim C1 — the duration parser

Supporting lemmas about the LIKE matcher, `INSTR`, `SUBSTR` and the integer
cast on digit strings, leading to a full characterization of
`parse_duration` on the three accepted shapes and on unrecognized input. -/

theorem toList_mk (l : List Char) : (⟨l⟩ : String).toList = l := rfl

/-- The character-level facts about decimal digits the parser proofs use. -/
theorem digit_char_facts (c : Char) (h : c ∈ digitChars) :
    lowerChar c = c ∧ c ≠ 'h' ∧ c ≠ 'm' ∧ c ≠ ' ' ∧ c ≠ '-' ∧ c ≠ '+' ∧
    Char.isDigit c = true ∧ isSpaceCh c = false := by
  fin_cases h <;> decide

/-- A `%`-headed pattern matching `s` also matches `t ++ s`. -/
theorem likeM_any_append (ps : List LikeTok) (t s : List Char)
    (h : likeM ps s = true) : likeM (.any :: ps) (t ++ s) = true := by
  induction t with
  | nil =>
    cases s with
    | nil => simpa [likeM] using h
    | cons c s' =>
      simp only [List.nil_append, likeM]
      rw [h]
      simp
  | cons a t ih =>
    simp only [List.cons_append, likeM]
    rw [ih]
    simp

/-- Every literal character of a matched pattern occurs (up to ASCII case)
in the matched string. -/
theorem likeM_lit_mem_aux (n : Nat) : ∀ (ps : List LikeTok) (s : List Char),
    ps.length + s.length ≤ n → likeM ps s = true →
    ∀ c : Char, .lit c ∈ ps → ∃ d ∈ s, lowerChar d = lowerChar c := by
  induction n with
  | zero =>
    intro ps s hlen _ c hc
    cases ps with
    | nil => exact absurd hc (List.not_mem_nil _)
    | cons tok ps' => simp at hlen
  | succ n ih =>
    intro ps s hlen h c hc
    cases ps with
    | nil => exact absurd hc (List.not_mem_nil _)
    | cons tok ps' =>
      cases tok with
      | any =>
        have hc' : LikeTok.lit c ∈ ps' := by
          rcases List.mem_cons.mp hc with hbad | h'
          · exact absurd hbad (by simp)
          · exact h'
        cases s with
        | nil =>
          have h' : likeM ps' [] = true := by simpa [likeM] using h
          exact ih ps' [] (by simp at hlen ⊢; omega) h' c hc'
        | cons a s' =>
          have h2 : likeM ps' (a :: s') = true ∨ likeM (.any :: ps') s' = true := by
            have h' : (likeM ps' (a :: s') || likeM (.any :: ps') s') = true := by
              simpa [likeM] using h
            exact Bool.or_eq_true_iff.mp h'
          rcases h2 with h' | h'
          · exact ih ps' (a :: s') (by simp at hlen ⊢; omega) h' c hc'
          · obtain ⟨d, hd, he⟩ := ih (.any :: ps') s' (by simp at hlen ⊢; omega) h' c hc
            exact ⟨d, List.mem_cons_of_mem _ hd, he⟩
      | lit p =>
        cases s with
        | nil => exact absurd h (by simp [likeM])
        | cons a s' =>
          have hb : (lowerChar p == lowerChar a) = true ∧ likeM ps' s' = true := by
            have h' : ((lowerChar p == lowerChar a) && likeM ps' s') = true := by
              simpa [likeM] using h
            exact Bool.and_eq_true_iff.mp h'
          rcases List.mem_cons.mp hc with hch | hc'
          · have hcp : c = p := by
              injection hch
            subst hcp
            exact ⟨a, List.mem_cons_self _ _, (eq_of_beq hb.1).symm⟩
          · obtain ⟨d, hd, he⟩ := ih ps' s' (by simp at hlen ⊢; omega) hb.2 c hc'
            exact ⟨d, List.mem_cons_of_mem _ hd, he⟩

theorem likeM_lit_mem (ps : List LikeTok) (s : List Char) (h : likeM ps s = true)
    (c : Char) (hc : .lit c ∈ ps) : ∃ d ∈ s, lowerChar d = lowerChar c :=
  likeM_lit_mem_aux (ps.length + s.length) ps s le_rfl h c hc

/-- A pattern whose literal `c` has no (case-folded) occurrence in `s`
cannot match `s`. -/
theorem likeM_eq_false_of_missing (ps : List LikeTok) (s : List Char) (c : Char)
    (hc : .lit c ∈ ps) (habs : ∀ d ∈ s, lowerChar d ≠ lowerChar c) :
    likeM ps s = false := by
  cases h : likeM ps s
  · rfl
  · obtain ⟨d, hd, he⟩ := likeM_lit_mem ps s h c hc
    exact absurd he (habs d hd)

/-- `INSTR` finds the first occurrence just past a needle-free prefix. -/
theorem instrAux_append (l : List Char) (t : Char) (r : List Char) (hl : t ∉ l) :
    ∀ i, instrAux (l ++ t :: r) t i = i + l.length := by
  induction l with
  | nil => intro i; simp [instrAux]
  | cons a l ih =>
    intro i
    have ha : a ≠ t := fun e => hl (by simp [e])
    have hl' : t ∉ l := fun hm => hl (List.mem_cons_of_mem _ hm)
    rw [List.cons_append]
    show (if a = t then i else instrAux (l ++ t :: r) t (i + 1)) = i + (a :: l).length
    rw [if_neg ha, ih hl' (i + 1)]
    simp
    omega

theorem takeWhile_append_of_all (p : Char → Bool) (l r : List Char)
    (hl : ∀ c ∈ l, p c = true) : (l ++ r).takeWhile p = l ++ r.takeWhile p := by
  induction l with
  | nil => simp
  | cons a l ih =>
    have ha := hl a (by simp)
    simp [List.takeWhile_cons, ha, ih (fun c hc => hl c (by simp [hc]))]

theorem dropWhile_eq_self_of_head (p : Char → Bool) (l : List Char)
    (h : ∀ c, l.head? = some c → p c = false) : l.dropWhile p = l := by
  cases l with
  | nil => rfl
  | cons a l => simp [List.dropWhile_cons, h a rfl]

/-- The integer cast of a digit run followed by a non-numeric, sign-free,
space-free remainder is the digit run's value. -/
theorem castIntL_digits_append (ds r : List Char) (hds : DigitStr ds)
    (hr : ∀ c, r.head? = some c →
      (isSpaceCh c = false ∧ Char.isDigit c = false ∧ c ≠ '-' ∧ c ≠ '+')) :
    castIntL (ds ++ r) = (digitsVal ds : Int) := by
  have hhead : ∀ c, (ds ++ r).head? = some c →
      (isSpaceCh c = false ∧ c ≠ '-' ∧ c ≠ '+') := by
    intro c hc
    cases ds with
    | nil => exact ⟨(hr c (by simpa using hc)).1, (hr c (by simpa using hc)).2.2.1,
        (hr c (by simpa using hc)).2.2.2⟩
    | cons d ds' =>
      have hcd : c = d := by simpa using hc.symm
      subst hcd
      obtain ⟨_, _, _, _, h5, h6, _, h8⟩ := digit_char_facts c (hds c (by simp))
      exact ⟨h8, h5, h6⟩
  have h1 : (ds ++ r).dropWhile isSpaceCh = ds ++ r :=
    dropWhile_eq_self_of_head _ _ (fun c hc => (hhead c hc).1)
  have h2 : (ds ++ r).head? ≠ some '-' := by
    intro hc
    exact absurd rfl (hhead '-' hc).2.1
  have h3 : (ds ++ r).head? ≠ some '+' := by
    intro hc
    exact absurd rfl (hhead '+' hc).2.2
  have h4 : (ds ++ r).takeWhile Char.isDigit = ds := by
    rw [takeWhile_append_of_all _ _ _
      (fun c hc => (digit_char_facts c (hds c hc)).2.2.2.2.2.2.1)]
    cases r with
    | nil => simp
    | cons c r' =>
      have := (hr c rfl).2.1
      simp [List.takeWhile_cons, this]
  simp only [castIntL, h1, if_neg h2, if_neg h3, h4]

/-- Stripping the unit suffix `'m'` from a digit run leaves the digit run. -/
theorem removeChar_m_digits (ms : List Char) (hms : DigitStr ms) :
    removeChar 'm' ⟨ms ++ ['m']⟩ = ⟨ms⟩ := by
  show (⟨((ms ++ ['m']).filter (· ≠ 'm')) ⟩ : String) = ⟨ms⟩
  congr 1
  rw [List.filter_append]
  have h1 : ms.filter (fun c => decide (c ≠ 'm')) = ms :=
    List.filter_eq_self.mpr (fun c hc => by
      simpa using (digit_char_facts c (hms c hc)).2.2.1)
  have h2 : (['m'] : List Char).filter (fun c => decide (c ≠ 'm')) = [] := by decide
  rw [h1, h2, List.append_nil]

theorem castIntL_digits (ds : List Char) (hds : DigitStr ds) :
    castIntL ds = (digitsVal ds : Int) := by
  have h := castIntL_digits_append ds [] hds (fun c hc => by simp at hc)
  simpa using h

/-- `SUBSTR(s, 1, n)` with `n` the length of a prefix extracts that prefix. -/
theorem substr_prefix (pre rest : List Char) :
    substr ⟨pre ++ rest⟩ 1 (pre.length : Int) = ⟨pre⟩ := by
  unfold substr substrL
  rw [toList_mk, if_neg (by omega : ¬ (pre.length : Int) < 0)]
  congr 1
  have h0 : ((1 : Int) - 1).toNat = 0 := rfl
  rw [h0, List.drop_zero, Int.toNat_natCast]
  exact List.take_left _ _

/-- `SUBSTR(s, |pre| + 1, z)` with `z` at least the remaining length
extracts everything after the prefix. -/
theorem substr_drop_prefix (pre rest : List Char) (z : Int)
    (hz : (rest.length : Int) ≤ z) :
    substr ⟨pre ++ rest⟩ ((pre.length : Int) + 1) z = ⟨rest⟩ := by
  unfold substr substrL
  rw [toList_mk, if_neg (by omega : ¬ z < 0)]
  congr 1
  have h1 : ((pre.length : Int) + 1 - 1).toNat = pre.length := by omega
  rw [h1, List.drop_left]
  exact List.take_of_length_le (by omega)

/-- `INSTR` on a digit prefix followed by `'h'`. -/
theorem instr_digits_h (hs rest : List Char) (hds : DigitStr hs) :
    instr ⟨hs ++ 'h' :: rest⟩ 'h' = hs.length + 1 := by
  have hh : 'h' ∉ hs := fun hm => (digit_char_facts 'h' (hds 'h' hm)).2.1 rfl
  unfold instr
  rw [toList_mk, instrAux_append hs 'h' rest hh 1]
  omega

/-- C1 (amended): `parse_duration` computes `h*60 + m` on `"<h>h <m>m"`,
`h*60` on `"<h>h"` and the bare minutes on `"<m>m"`, for arbitrary digit
runs; but a string of any other shape is NOT an error: the ELSE branch
strips `'m'` characters and casts the remainder with SQLite's
integer-prefix semantics, so a fully non-numeric string such as
`"garbage"` silently becomes 0. -/
theorem parse_duration_shapes (hs ms : List Char)
    (hds : DigitStr hs) (hms : DigitStr ms) :
    parse_duration ⟨hs ++ 'h' :: ' ' :: (ms ++ ['m'])⟩ =
      60 * (digitsVal hs : Int) + (digitsVal ms : Int) ∧
    parse_duration ⟨hs ++ ['h']⟩ = 60 * (digitsVal hs : Int) ∧
    parse_duration ⟨ms ++ ['m']⟩ = (digitsVal ms : Int) ∧
    parse_duration "garbage" = 0 := by
  have hms_m : ∀ d ∈ ms ++ ['m'], lowerChar d ≠ lowerChar 'h' := by
    intro d hd
    rcases List.mem_append.mp hd with hmem | hmem
    · obtain ⟨hlow, hneh, _, _, _, _, _, _⟩ := digit_char_facts d (hms d hmem)
      rw [hlow]
      exact fun e => hneh (by rw [e]; rfl)
    · have hdm : d = 'm' := by simpa using hmem
      subst hdm
      decide
  have hcast_m : castIntL (ms ++ ['m']) = (digitsVal ms : Int) :=
    castIntL_digits_append ms ['m'] hms
      (fun c hc => by
        have hcm : c = 'm' := by simpa using hc.symm
        subst hcm
        exact ⟨rfl, rfl, by decide, by decide⟩)
  refine ⟨?_, ?_, ?_, ?_⟩
  · -- shape "<h>h <m>m"
    have hstep : likeM [.lit 'm'] ['m'] = true := by simp [likeM]
    have h2 : likeM [.any, .lit 'm'] (ms ++ ['m']) = true :=
      likeM_any_append _ ms _ hstep
    have h3 : likeM [.lit 'h', .lit ' ', .any, .lit 'm']
        ('h' :: ' ' :: (ms ++ ['m'])) = true := by
      simp [likeM, h2]
    have hlike : likeM patHM (hs ++ 'h' :: ' ' :: (ms ++ ['m'])) = true :=
      likeM_any_append _ hs _ h3
    have hinstr := instr_digits_h hs (' ' :: (ms ++ ['m'])) hds
    unfold parse_duration
    rw [toList_mk, hlike, if_pos rfl, hinstr]
    have harg1 : ((hs.length + 1 : Nat) : Int) - 1 = (hs.length : Int) := by
      push_cast
      ring
    rw [harg1, substr_prefix hs ('h' :: ' ' :: (ms ++ ['m']))]
    have hsl : (hs ++ 'h' :: ' ' :: (ms ++ ['m'])) = ((hs ++ ['h', ' ']) ++ (ms ++ ['m'])) := by
      simp
    have harg2 : ((hs.length + 1 : Nat) : Int) + 2 = (((hs ++ ['h', ' ']).length : Nat) : Int) + 1 := by
      simp
      ring
    rw [harg2]
    have hsub2 : substr ⟨hs ++ 'h' :: ' ' :: (ms ++ ['m'])⟩
        ((((hs ++ ['h', ' ']).length : Nat) : Int) + 1)
        ((hs ++ 'h' :: ' ' :: (ms ++ ['m'])).length : Int) = ⟨ms ++ ['m']⟩ := by
      have := substr_drop_prefix (hs ++ ['h', ' ']) (ms ++ ['m'])
        ((hs ++ 'h' :: ' ' :: (ms ++ ['m'])).length : Int)
        (by simp; omega)
      rw [← hsl] at this
      exact this
    rw [hsub2]
    unfold castInt
    rw [toList_mk, toList_mk, castIntL_digits hs hds, hcast_m]
    ring
  · -- shape "<h>h"
    have hnot : likeM patHM (hs ++ ['h']) = false := by
      apply likeM_eq_false_of_missing _ _ ' ' (by decide)
      intro d hd
      rcases List.mem_append.mp hd with hmem | hmem
      · obtain ⟨hlow, _, _, hnesp, _, _, _, _⟩ := digit_char_facts d (hds d hmem)
        rw [hlow]
        exact fun e => hnesp (by rw [e]; rfl)
      · have hdh : d = 'h' := by simpa using hmem
        subst hdh
        decide
    have hlike : likeM patH (hs ++ ['h']) = true :=
      likeM_any_append _ hs _ (by simp [likeM])
    have hinstr := instr_digits_h hs [] hds
    unfold parse_duration
    rw [toList_mk, hnot]
    simp only [Bool.false_eq_true, if_false]
    rw [hlike, if_pos rfl, hinstr]
    have harg1 : ((hs.length + 1 : Nat) : Int) - 1 = (hs.length : Int) := by
      push_cast
      ring
    rw [harg1, substr_prefix hs ['h']]
    unfold castInt
    rw [toList_mk, castIntL_digits hs hds]
    ring
  · -- shape "<m>m"
    have hnot1 : likeM patHM (ms ++ ['m']) = false :=
      likeM_eq_false_of_missing _ _ 'h' (by decide) hms_m
    have hnot2 : likeM patH (ms ++ ['m']) = false :=
      likeM_eq_false_of_missing _ _ 'h' (by decide) hms_m
    unfold parse_duration
    rw [toList_mk, hnot1]
    simp only [Bool.false_eq_true, if_false]
    rw [hnot2]
    simp only [Bool.false_eq_true, if_false]
    rw [removeChar_m_digits ms hms]
    unfold castInt
    rw [toList_mk, castIntL_digits ms hms]
  · -- unrecognized shape: silent integer-prefix cast, 0 here
    have habs : ∀ d ∈ "garbage".toList, lowerChar d ≠ lowerChar 'h' := by decide
    have hnot1 : likeM patHM "garbage".toList = false :=
      likeM_eq_false_of_missing _ _ 'h' (by decide) habs
    have hnot2 : likeM patH "garbage".toList = false :=
      likeM_eq_false_of_missing _ _ 'h' (by decide) habs
    unfold parse_duration
    rw [hnot1]
    simp only [Bool.false_eq_true, if_false]
    rw [hnot2]
    simp only [Bool.false_eq_true, if_false]
    decide

/-- Witness for C1's amended theorem at the spec's own example inputs. -/
theorem parse_duration_shapes_witness :
    parse_duration "2h 30m" = 150 ∧ parse_duration "2h" = 120 ∧
    parse_duration "45m" = 45 ∧ parse_duration "garbage" = 0 := by
  have h2 := parse_duration_shapes ['2'] ['3', '0'] (by decide) (by decide)
  have h45 := parse_duration_shapes ['4'] ['4', '5'] (by decide) (by decide)
  exact ⟨h2.1.trans (by decide), h2.2.1.trans (by decide),
    h45.2.2.1.trans (by decide), h2.2.2.2⟩

/-- C1 (counterexample): `parse_duration "garbage"` silently evaluates to the
value 0 — the `ELSE CAST(REPLACE(.., 'm', '') AS INT)` branch casts a
non-numeric string to 0 — and the cleaned column stores the defined value 0,
so no fatal parse error is raised. -/
theorem parse_duration_garbage_returns_value :
    parse_duration "garbage" = 0 ∧
    (cleanRow { rawAllNull with durationTime := some "garbage" }).duration_Minutes =
      some 0 := by
  have habs : ∀ d ∈ "garbage".toList, lowerChar d ≠ lowerChar 'h' := by decide
  have hnot1 : likeM patHM "garbage".toList = false :=
    likeM_eq_false_of_missing _ _ 'h' (by decide) habs
  have hnot2 : likeM patH "garbage".toList = false :=
    likeM_eq_false_of_missing _ _ 'h' (by decide) habs
  have h : parse_duration "garbage" = 0 := by
    unfold parse_duration
    rw [hnot1]
    simp only [Bool.false_eq_true, if_false]
    rw [hnot2]
    simp only [Bool.false_eq_true, if_false]
    decide
  exact ⟨h, by simp [cleanRow, h]⟩

end Aviation
